import Mathlib

/-! The probe execution engine of transc-exporter.

A shallow embedding of `devops/main.go` (`scrapeOnce`) and of the three probes
`probe/health.go` (`CheckHealth`), `probe/users.go` (`CollectUsers`) and
`probe/ws.go` (`CheckWebSocket`).

The outside world (the HTTP backend, the WebSocket peer, the clocks) is an
explicit value of type `Env`; every call the Go code makes into a library is
appended to a trace, and a Go call ends in one of three ways: it returns, it
panics, or its goroutine blocks forever.
-/

namespace Exporter

/-! ## Data model -/

/-- A `time.Duration`, in nanoseconds. -/
abbrev Duration := Int

/-- The `config.Config` struct of `config/config.go`. -/
structure Config where
  backendBase : String
  wsURL : String
  apiToken : String
  scrapeInterval : Duration
  httpTimeout : Duration
  wsTimeout : Duration

/-- The accessor `Config.BackendBase`. -/
def Config.BackendBase (c : Config) : String := c.backendBase
/-- The accessor `Config.WSURL`. -/
def Config.WSURL (c : Config) : String := c.wsURL
/-- The accessor `Config.APIToken`. -/
def Config.APIToken (c : Config) : String := c.apiToken
/-- The accessor `Config.HTTPTimeout`. -/
def Config.HTTPTimeout (c : Config) : Duration := c.httpTimeout
/-- The accessor `Config.WSTimeout`. -/
def Config.WSTimeout (c : Config) : Duration := c.wsTimeout

/-- The part of a `context.Context` the probes read: its deadline, if any (a
wall-clock instant in nanoseconds). -/
structure Context where
  deadline : Option Int

/-- The kinds of JSON value, as `UnmarshalTypeError.Value` names them. -/
inductive JsonKind where
  | bool | number | string | array | object
  deriving DecidableEq, Repr

/-- The Go types `CollectUsers` decodes into: `bool`, `probe.UserRow`,
`[]probe.UserRow` and the anonymous `struct { Users []UserRow }`. -/
inductive GoType where
  | bool | userRow | userRowSlice | wrapped
  deriving DecidableEq, Repr

/-- An error of `encoding/json`: a `SyntaxError`, or an `UnmarshalTypeError`
with its `Value` (the kind of JSON value met) and `Type` (the Go type it was to
be stored in). -/
inductive JsonError where
  | syntaxError
  | typeError (value : JsonKind) (goType : GoType)
  deriving DecidableEq, Repr

/-- A Go `error` value. `lib` is an error handed back by a library call
(net/http, net/url, io, gorilla/websocket); the other constructors are the
errors the probes build themselves, holding the arguments of their
`fmt.Errorf` format. -/
inductive GoError where
  | lib (msg : String)
  /-- The error `users: unexpected status %d: %s`. -/
  | usersStatus (code : Int) (body : List UInt8)
  /-- The error `users: decode failed: %v / wrapped: %v`. -/
  | usersDecode (first : JsonError) (second : JsonError)
  deriving DecidableEq, Repr

/-- A response body as a stream: the bytes it delivers, then either EOF
(`readErr = none`) or a read error. -/
structure Body where
  bytes : List UInt8
  readErr : Option GoError
  deriving DecidableEq, Repr

/-- The part of `*http.Request` the probes set: the URL and the
`Authorization` header. -/
structure Request where
  url : String
  authorization : Option String
  deriving DecidableEq, Repr

/-- The part of `*http.Response` the probes read. -/
structure Response where
  statusCode : Int
  body : Body
  deriving DecidableEq, Repr

/-- A JSON document as `encoding/json` scans it. An object keeps its members in
document order, repeated keys included. -/
inductive JSON where
  | null
  | bool (b : Bool)
  | num (literal : String)
  | str (s : String)
  | arr (elems : List JSON)
  | obj (members : List (String × JSON))

/-- What one call of `conn.ReadMessage` does: the pong control frames it
dispatches to the pong handler before it returns (for each, the value
`time.Since(t0)` has at that moment), then its result: `none` for a data
message, `some e` for an error. -/
structure ReadStep where
  pongs : List Duration
  err : Option GoError
  deriving DecidableEq, Repr

/-- An established WebSocket connection, as the peer drives it: the result of
`WriteControl`, the successive `ReadMessage` calls, and the error of every read
after those (the read deadline set by `SetReadDeadline` expires). -/
structure WSConn where
  writeErr : Option GoError
  reads : List ReadStep
  deadlineErr : GoError
  deriving DecidableEq, Repr

/-- The outside world of one scrape cycle. -/
structure Env where
  /-- The call `http.NewRequestWithContext` on a URL: `none` when the request
  is built, `some e` when it returns `(nil, e)`. -/
  newRequest : String → Option GoError
  /-- The call `client.Do` on a built request. -/
  clientDo : Request → Except GoError Response
  /-- The value of `time.Since(t0)` after `client.Do` in `CheckHealth`. -/
  healthLatency : Duration
  /-- The scanner of `encoding/json`: the document held by a body, `none` when
  the body is not valid JSON. -/
  jsonScan : List UInt8 → Option JSON
  /-- The call `Dialer.DialContext` on a URL and an `Authorization` header. -/
  wsDial : String → Option String → Except GoError WSConn
  /-- The value of `time.Now()` in `CheckWebSocket`. -/
  now : Int

/-- A library call made by a probe. -/
inductive Call where
  | newRequest (url : String)
  | clientDo (req : Request)
  | bodyClose
  | readAll (limit : Option Nat)
  | unmarshalSlice
  | unmarshalWrapped
  | wsDial (url : String) (authorization : Option String)
  | wsSetPongHandler
  | wsSetReadDeadline (deadline : Int)
  | wsWriteControl (deadline : Int)
  | wsReadMessage
  | wsClose
  deriving DecidableEq, Repr

/-- How a Go call ends. -/
inductive Outcome (α : Type) where
  | returned (a : α)
  | panicked
  | blocked
  deriving DecidableEq, Repr

/-- A run of a probe: how it ends and the library calls it made, in order. -/
structure Run (α : Type) where
  outcome : Outcome α
  trace : List Call

/-! ## probe/health.go -/

/-- The header value set by `req.Header.Set("Authorization", "Bearer "+tok)`,
when a token is configured. -/
def bearer (cfg : Config) : Option String :=
  if cfg.APIToken ≠ "" then some ("Bearer " ++ cfg.APIToken) else none

/-- The function `CheckHealth` of `probe/health.go`. The error of
`http.NewRequestWithContext` is discarded (`req, _ :=`); when the request could
not be built `req` is nil, and both `req.Header.Set` (token configured) and
`client.Do(req)` (which reads `req.URL`) dereference it. -/
def CheckHealth (env : Env) (_ctx : Context) (cfg : Config) :
    Run (Bool × Duration × Option GoError) :=
  let url := cfg.BackendBase ++ "/health"
  match env.newRequest url with
  | some _ => { outcome := .panicked, trace := [.newRequest url] }
  | none =>
    let req : Request := { url := url, authorization := bearer cfg }
    let lat := env.healthLatency
    match env.clientDo req with
    | .error err =>
      { outcome := .returned (false, lat, some err),
        trace := [.newRequest url, .clientDo req] }
    | .ok resq =>
      { outcome := .returned (decide (Int.tdiv resq.statusCode 100 = 2), lat, none),
        trace := [.newRequest url, .clientDo req, .bodyClose] }

/-! ## probe/users.go -/

/-- The struct `UserRow` of `probe/users.go`. -/
structure UserRow where
  IsOnline : Bool
  InGame : Bool
  deriving DecidableEq, Repr

/-- The zero value of `UserRow`. -/
def UserRow.zero : UserRow := { IsOnline := false, InGame := false }

/-- A `[]UserRow` value: its elements, and what its backing array still holds
beyond its length (`encoding/json` decodes an array element into the storage
already there). The nil slice has neither. -/
structure RowSlice where
  elems : List UserRow
  spare : List UserRow
  deriving DecidableEq, Repr

/-- The nil slice. -/
def RowSlice.nil : RowSlice := { elems := [], spare := [] }

/-- Case folding of a rune as `encoding/json` folds the runes of a key: ASCII
letters to upper case, and the two non-ASCII runes whose folding orbit holds an
ASCII letter (U+017F with `S`, U+212A with `K`). Other runes are left alone,
which agrees with Go whenever one of the two names compared is ASCII. -/
def foldRune (c : Char) : Char :=
  if c.toNat = 0x17F then Char.ofNat 0x53
  else if c.toNat = 0x212A then Char.ofNat 0x4B
  else c.toUpper

/-- Whether a JSON key selects the struct field with the given `json` name:
equal up to case folding. -/
def keyMatches (name key : String) : Bool :=
  key.data.map foldRune == name.data.map foldRune

/-- The first error saved by the decoder (`d.saveError` keeps the earliest). -/
def firstError (saved new : Option JsonError) : Option JsonError :=
  match saved with
  | some e => some e
  | none => new

/-- Decoding a JSON value into a `bool` field holding `cur`. -/
def decodeBool (cur : Bool) : JSON → Bool × Option JsonError
  | .bool b => (b, none)
  | .null => (cur, none)
  | .num _ => (cur, some (.typeError .number .bool))
  | .str _ => (cur, some (.typeError .string .bool))
  | .arr _ => (cur, some (.typeError .array .bool))
  | .obj _ => (cur, some (.typeError .object .bool))

/-- One member of a JSON object decoded into a `UserRow`: the keys `isOnline`
and `isInGame` select their fields, any other member is skipped. -/
def decodeRowMember (acc : UserRow × Option JsonError) (m : String × JSON) :
    UserRow × Option JsonError :=
  if keyMatches "isOnline" m.1 then
    let r := decodeBool acc.1.IsOnline m.2
    ({ acc.1 with IsOnline := r.1 }, firstError acc.2 r.2)
  else if keyMatches "isInGame" m.1 then
    let r := decodeBool acc.1.InGame m.2
    ({ acc.1 with InGame := r.1 }, firstError acc.2 r.2)
  else acc

/-- Decoding a JSON value into a `UserRow` holding `cur`. -/
def decodeRow (cur : UserRow) : JSON → UserRow × Option JsonError
  | .obj ms => ms.foldl decodeRowMember (cur, none)
  | .null => (cur, none)
  | .bool _ => (cur, some (.typeError .bool .userRow))
  | .num _ => (cur, some (.typeError .number .userRow))
  | .str _ => (cur, some (.typeError .string .userRow))
  | .arr _ => (cur, some (.typeError .array .userRow))

/-- The elements of a JSON array decoded one by one into the storage of a
slice: element `i` starts from what the storage holds at `i`, or from the zero
row beyond it. -/
def decodeElems : List UserRow → List JSON → List UserRow × Option JsonError
  | _, [] => ([], none)
  | storage, j :: js =>
    let r := decodeRow (storage.headD UserRow.zero) j
    let rest := decodeElems storage.tail js
    (r.1 :: rest.1, firstError r.2 rest.2)

/-- Decoding a JSON value into a `[]UserRow` holding `cur`. An empty array
gives a fresh empty slice, `null` the nil slice. -/
def decodeSlice (cur : RowSlice) : JSON → RowSlice × Option JsonError
  | .arr [] => ({ elems := [], spare := [] }, none)
  | .arr (j :: js) =>
    let r := decodeElems (cur.elems ++ cur.spare) (j :: js)
    ({ elems := r.1, spare := (cur.elems ++ cur.spare).drop r.1.length }, r.2)
  | .null => (RowSlice.nil, none)
  | .bool _ => (cur, some (.typeError .bool .userRowSlice))
  | .num _ => (cur, some (.typeError .number .userRowSlice))
  | .str _ => (cur, some (.typeError .string .userRowSlice))
  | .obj _ => (cur, some (.typeError .object .userRowSlice))

/-- One member of a JSON object decoded into the wrapper struct: the key
`users` selects its only field. -/
def decodeWrappedMember (acc : RowSlice × Option JsonError) (m : String × JSON) :
    RowSlice × Option JsonError :=
  if keyMatches "users" m.1 then
    let r := decodeSlice acc.1 m.2
    (r.1, firstError acc.2 r.2)
  else acc

/-- Decoding a JSON value into the wrapper `struct { Users []UserRow }` whose
field holds `cur`. -/
def decodeWrapped (cur : RowSlice) : JSON → RowSlice × Option JsonError
  | .obj ms => ms.foldl decodeWrappedMember (cur, none)
  | .null => (cur, none)
  | .bool _ => (cur, some (.typeError .bool .wrapped))
  | .num _ => (cur, some (.typeError .number .wrapped))
  | .str _ => (cur, some (.typeError .string .wrapped))
  | .arr _ => (cur, some (.typeError .array .wrapped))

/-- The call `json.Unmarshal(body, &users)` on a nil `users`: a body that is not
valid JSON is a syntax error and stores nothing. -/
def unmarshalSlice : Option JSON → RowSlice × Option JsonError
  | none => (RowSlice.nil, some .syntaxError)
  | some doc => decodeSlice RowSlice.nil doc

/-- The call `json.Unmarshal(body, &wrapped)` on a zero `wrapped`; the result is
`wrapped.Users`. -/
def unmarshalWrapped : Option JSON → RowSlice × Option JsonError
  | none => (RowSlice.nil, some .syntaxError)
  | some doc => decodeWrapped RowSlice.nil doc

/-- One turn of the loop `for _, u := range users` over the named results
`online` and `ingame`. -/
def countStep (acc : Int × Int) (u : UserRow) : Int × Int :=
  (if u.IsOnline then acc.1 + 1 else acc.1, if u.InGame then acc.2 + 1 else acc.2)

/-- The loop `for _, u := range users`, from `online = 0` and `ingame = 0`. -/
def countUsers (users : List UserRow) : Int × Int :=
  users.foldl countStep (0, 0)

/-- The function `CollectUsers` of `probe/users.go`. The counts are Go `int`s
bounded by the number of rows, so they do not wrap. -/
def CollectUsers (env : Env) (_ctx : Context) (cfg : Config) :
    Run (Int × Int × Option GoError) :=
  let url := cfg.BackendBase ++ "/users"
  match env.newRequest url with
  | some err => { outcome := .returned (0, 0, some err), trace := [.newRequest url] }
  | none =>
    let req : Request := { url := url, authorization := bearer cfg }
    match env.clientDo req with
    | .error err =>
      { outcome := .returned (0, 0, some err), trace := [.newRequest url, .clientDo req] }
    | .ok resp =>
      if Int.tdiv resp.statusCode 100 ≠ 2 then
        let body := resp.body.bytes.take 1024
        { outcome := .returned (0, 0, some (.usersStatus resp.statusCode body)),
          trace := [.newRequest url, .clientDo req, .readAll (some 1024), .bodyClose] }
      else
        match resp.body.readErr with
        | some err =>
          { outcome := .returned (0, 0, some err),
            trace := [.newRequest url, .clientDo req, .readAll none, .bodyClose] }
        | none =>
          let doc := env.jsonScan resp.body.bytes
          let first := unmarshalSlice doc
          match first.2 with
          | none =>
            let n := countUsers first.1.elems
            { outcome := .returned (n.1, n.2, none),
              trace := [.newRequest url, .clientDo req, .readAll none, .unmarshalSlice,
                .bodyClose] }
          | some err =>
            let second := unmarshalWrapped doc
            match second.2 with
            | some err2 =>
              { outcome := .returned (0, 0, some (.usersDecode err err2)),
                trace := [.newRequest url, .clientDo req, .readAll none, .unmarshalSlice,
                  .unmarshalWrapped, .bodyClose] }
            | none =>
              let n := countUsers second.1.elems
              { outcome := .returned (n.1, n.2, none),
                trace := [.newRequest url, .clientDo req, .readAll none, .unmarshalSlice,
                  .unmarshalWrapped, .bodyClose] }

/-- A user record written as a JSON object with its two boolean members. -/
def encodeUser (u : UserRow) : JSON :=
  .obj [("isOnline", .bool u.IsOnline), ("isInGame", .bool u.InGame)]

/-- A list of user records written in the first shape: a bare JSON array. -/
def encodeArray (l : List UserRow) : JSON :=
  .arr (l.map encodeUser)

/-- A list of user records written in the second shape: an object whose member
`users` is the array. -/
def encodeWrapped (l : List UserRow) : JSON :=
  .obj [("users", encodeArray l)]

/-- Whether a document has the first accepted shape, read broadly: a JSON array
whose elements are all objects. -/
def isRecordArray : JSON → Bool
  | .arr es => es.all fun e =>
    match e with
    | .obj _ => true
    | _ => false
  | _ => false

/-- Whether a document has the second accepted shape, read broadly: a JSON
object with a member `users` holding an array of objects. -/
def isWrappedRecordArray : JSON → Bool
  | .obj ms => ms.any fun m => keyMatches "users" m.1 && isRecordArray m.2
  | _ => false

/-! ## probe/ws.go -/

/-- The pong handler run on each pong of one `ReadMessage`: the send
`done <- time.Since(t0)` on a channel of capacity 1. `done` is what the channel
holds. A send on the full channel never completes, since the only receiver is
the goroutine that is sending: the result is then `none`. -/
def deliverPongs : Option Duration → List Duration → Option (Option Duration)
  | done, [] => some done
  | none, p :: ps => deliverPongs (some p) ps
  | some _, _ :: _ => none

/-- The loop `for { select { case rtt := <-done: ... default: ReadMessage } }` of
`CheckWebSocket`, `done` being what the channel holds. Once the listed reads are
used up the next read fails with the deadline error. -/
def readLoop (deadlineErr : GoError) :
    Option Duration → List ReadStep → Run (Duration × Option GoError)
  | some rtt, _ => { outcome := .returned (rtt, none), trace := [] }
  | none, [] => { outcome := .returned (0, some deadlineErr), trace := [.wsReadMessage] }
  | none, s :: rest =>
    match deliverPongs none s.pongs with
    | none => { outcome := .blocked, trace := [.wsReadMessage] }
    | some done =>
      match s.err with
      | some er => { outcome := .returned (0, some er), trace := [.wsReadMessage] }
      | none =>
        let r := readLoop deadlineErr done rest
        { outcome := r.outcome, trace := .wsReadMessage :: r.trace }

/-- The effective deadline of `CheckWebSocket`: two seconds from now, or the
deadline of the context when it is earlier. -/
def wsDeadline (now : Int) (ctx : Context) : Int :=
  match ctx.deadline with
  | some dl => if dl < now + 2 * 1000000000 then dl else now + 2 * 1000000000
  | none => now + 2 * 1000000000

/-- The calls run by `defer conn.Close()` when the function ends: deferred calls
run when it returns, not while its goroutine is blocked. -/
def deferredClose {α : Type} : Outcome α → List Call
  | .returned _ => [.wsClose]
  | .panicked => [.wsClose]
  | .blocked => []

/-- The function `CheckWebSocket` of `probe/ws.go`. -/
def CheckWebSocket (env : Env) (ctx : Context) (cfg : Config) :
    Run (Duration × Option GoError) :=
  let hdr := bearer cfg
  match env.wsDial cfg.WSURL hdr with
  | .error err => { outcome := .returned (0, some err), trace := [.wsDial cfg.WSURL hdr] }
  | .ok conn =>
    let deadline := wsDeadline env.now ctx
    let setup : List Call :=
      [.wsDial cfg.WSURL hdr, .wsSetPongHandler, .wsSetReadDeadline deadline,
        .wsWriteControl deadline]
    match conn.writeErr with
    | some err => { outcome := .returned (0, some err), trace := setup ++ [.wsClose] }
    | none =>
      let r := readLoop conn.deadlineErr none conn.reads
      { outcome := r.outcome, trace := setup ++ r.trace ++ deferredClose r.outcome }

/-! ## metrics/metrics.go and main.go -/

/-- The gauges of `metrics/metrics.go` that `scrapeOnce` sets. -/
inductive Gauge where
  | BackendHealthUp | UsersOnline | UsersInGame | WSUp
  deriving DecidableEq, Repr

/-- The histograms of `metrics/metrics.go` that `scrapeOnce` observes. -/
inductive Histogram where
  | BackendHealthLatency | WSPingRTT
  deriving DecidableEq, Repr

/-- An operation on the metrics sink. A gauge is set to `float64(v)` for an
integer `v`; a histogram observes `d.Seconds()` for a duration `d`. -/
inductive SinkOp where
  | set (g : Gauge) (v : Int)
  | observe (h : Histogram) (d : Duration)
  deriving DecidableEq, Repr

/-- The state of the metrics sink: the operations applied to it, oldest first. -/
abbrev Sink := List SinkOp

/-- The values a gauge was set to, oldest first. -/
def Sink.sets (s : Sink) (g : Gauge) : List Int :=
  s.filterMap fun op =>
    match op with
    | .set g2 v => if g2 = g then some v else none
    | .observe _ _ => none

/-- The value a gauge holds: the last one it was set to, 0 when never set. -/
def Sink.gauge (s : Sink) (g : Gauge) : Int :=
  ((s.sets g).getLast?).getD 0

/-- The observations a histogram received, oldest first. -/
def Sink.observations (s : Sink) (h : Histogram) : List Duration :=
  s.filterMap fun op =>
    match op with
    | .set _ _ => none
    | .observe h2 d => if h2 = h then some d else none

/-- A run of `scrapeOnce`: how it ends, the library calls made, and the sink
when it ends. -/
structure CycleRun where
  outcome : Outcome (Option GoError)
  trace : List Call
  sink : Sink

/-- The function `scrapeOnce` of `main.go`. -/
def scrapeOnce (env : Env) (ctx : Context) (cfg : Config) (sink : Sink) : CycleRun :=
  let h := CheckHealth env ctx cfg
  match h.outcome with
  | .panicked => { outcome := .panicked, trace := h.trace, sink := sink }
  | .blocked => { outcome := .blocked, trace := h.trace, sink := sink }
  | .returned (_, _, some err) =>
    { outcome := .returned (some err), trace := h.trace, sink := sink }
  | .returned (ok, lat, none) =>
    let sink1 := sink ++
      [.set .BackendHealthUp (if ok then 1 else 0), .observe .BackendHealthLatency lat]
    let u := CollectUsers env ctx cfg
    match u.outcome with
    | .panicked => { outcome := .panicked, trace := h.trace ++ u.trace, sink := sink1 }
    | .blocked => { outcome := .blocked, trace := h.trace ++ u.trace, sink := sink1 }
    | .returned (_, _, some err) =>
      { outcome := .returned (some err), trace := h.trace ++ u.trace, sink := sink1 }
    | .returned (online, ingame, none) =>
      let sink2 := sink1 ++ [.set .UsersOnline online, .set .UsersInGame ingame]
      let w := CheckWebSocket env ctx cfg
      match w.outcome with
      | .panicked =>
        { outcome := .panicked, trace := h.trace ++ u.trace ++ w.trace, sink := sink2 }
      | .blocked =>
        { outcome := .blocked, trace := h.trace ++ u.trace ++ w.trace, sink := sink2 }
      | .returned (_, some _) =>
        { outcome := .returned none, trace := h.trace ++ u.trace ++ w.trace,
          sink := sink2 ++ [.set .WSUp 0] }
      | .returned (rtt, none) =>
        { outcome := .returned none, trace := h.trace ++ u.trace ++ w.trace,
          sink := sink2 ++ [.set .WSUp 1, .observe .WSPingRTT rtt] }

/-! ## Sample worlds -/

/-- A configuration with the defaults of `config.Load`. -/
def defaultConfig : Config :=
  { backendBase := "http://backend:3001", wsURL := "ws://backend:3001/ws", apiToken := "",
    scrapeInterval := 5000000000, httpTimeout := 2000000000, wsTimeout := 3000000000 }

/-- The background context: no deadline. -/
def background : Context := { deadline := none }

/-- A connection whose peer answers the ping with a pong after 5 ms and then
sends a data message. -/
def pongThenMessage : WSConn :=
  { writeErr := none, reads := [{ pongs := [5000000], err := none }],
    deadlineErr := .lib "i/o timeout" }

/-- A connection whose peer answers the ping with a pong after 5 ms and then
stays silent until the read deadline. -/
def pongThenSilence : WSConn :=
  { writeErr := none, reads := [{ pongs := [5000000], err := some (.lib "i/o timeout") }],
    deadlineErr := .lib "i/o timeout" }

/-- A world whose backend is healthy: `/health` and `/users` answer 200, the
body of `/users` holds the document `doc`, and the WebSocket peer is `conn`. -/
def healthyEnv (doc : Option JSON) (conn : WSConn) : Env :=
  { newRequest := fun _ => none,
    clientDo := fun _ => .ok { statusCode := 200, body := { bytes := [], readErr := none } },
    healthLatency := 3000000,
    jsonScan := fun _ => doc,
    wsDial := fun _ _ => .ok conn,
    now := 0 }

/-- A world in which `client.Do` fails for every request. -/
def unreachableEnv : Env :=
  { newRequest := fun _ => none,
    clientDo := fun _ => .error (.lib "dial tcp: connection refused"),
    healthLatency := 3000000,
    jsonScan := fun _ => none,
    wsDial := fun _ _ => .ok pongThenMessage,
    now := 0 }

/-- A world in which `/health` answers 200 and `/users` answers 404, and the
WebSocket peer answers the ping and then sends a data message. -/
def usersMissingEnv : Env :=
  { newRequest := fun _ => none,
    clientDo := fun req =>
      if req.url = "http://backend:3001/health" then
        .ok { statusCode := 200, body := { bytes := [], readErr := none } }
      else .ok { statusCode := 404, body := { bytes := [], readErr := none } },
    healthLatency := 3000000,
    jsonScan := fun _ => none,
    wsDial := fun _ _ => .ok pongThenMessage,
    now := 0 }

/-- A configuration whose base URL has a space in the host name. -/
def badHostConfig : Config :=
  { backendBase := "http://bad host:3001", wsURL := "ws://backend:3001/ws", apiToken := "",
    scrapeInterval := 5000000000, httpTimeout := 2000000000, wsTimeout := 3000000000 }

/-- A world in which a request is built only for a URL without a space (`url.Parse`
rejects a space in the host name), and every request sent is answered 200. -/
def strictURLEnv : Env :=
  { newRequest := fun url =>
      if url.data.contains (Char.ofNat 32) then
        some (.lib "parse: invalid character in host name")
      else none,
    clientDo := fun _ => .ok { statusCode := 200, body := { bytes := [], readErr := none } },
    healthLatency := 3000000,
    jsonScan := fun _ => none,
    wsDial := fun _ _ => .ok pongThenMessage,
    now := 0 }

/-- A world in which `/health` answers 503 and everything else is as in
`healthyEnv`. -/
def unhealthyEnv : Env :=
  { newRequest := fun _ => none,
    clientDo := fun _ => .ok { statusCode := 503, body := { bytes := [], readErr := none } },
    healthLatency := 3000000,
    jsonScan := fun _ => none,
    wsDial := fun _ _ => .ok pongThenMessage,
    now := 0 }

/-- A world in which every request is answered 404 with a body of 2000 bytes. -/
def notFoundEnv : Env :=
  { newRequest := fun _ => none,
    clientDo := fun _ =>
      .ok { statusCode := 404, body := { bytes := List.replicate 2000 120, readErr := none } },
    healthLatency := 3000000,
    jsonScan := fun _ => some (.arr []),
    wsDial := fun _ _ => .ok pongThenMessage,
    now := 0 }

/-- A world in which the WebSocket handshake fails. -/
def noWebSocketEnv : Env :=
  { newRequest := fun _ => none,
    clientDo := fun _ => .ok { statusCode := 200, body := { bytes := [], readErr := none } },
    healthLatency := 3000000,
    jsonScan := fun _ => some (.arr []),
    wsDial := fun _ _ => .error (.lib "websocket: bad handshake"),
    now := 0 }

/-- A connection whose peer sends two pongs in a row, the second unsolicited,
before anything else. -/
def twoPongs : WSConn :=
  { writeErr := none, reads := [{ pongs := [5000000, 6000000], err := none }],
    deadlineErr := .lib "i/o timeout" }

/-- A connection on which the ping cannot be written. -/
def brokenPipe : WSConn :=
  { writeErr := some (.lib "write: broken pipe"), reads := [],
    deadlineErr := .lib "i/o timeout" }

/-- A world like `healthyEnv` whose `/users` body is an empty array. -/
def wsEnv (conn : WSConn) : Env := healthyEnv (some (.arr [])) conn

/-! ## Auxiliary facts -/

/-- Go integer division by 100 (truncated) gives 2 exactly on 200..299. -/
theorem tdiv_hundred_eq_two (s : Int) : Int.tdiv s 100 = 2 ↔ 200 ≤ s ∧ s ≤ 299 := by
  rcases Int.lt_or_le s 0 with h | h
  · have h0 : Int.tdiv s 100 = -(Int.tdiv (-s) 100) := by
      rw [Int.neg_tdiv, Int.neg_neg]
    have h1 : Int.tdiv (-s) 100 = (-s) / 100 := Int.tdiv_eq_ediv (by omega) (by omega)
    rw [h0, h1]
    omega
  · rw [Int.tdiv_eq_ediv h (by omega)]
    omega

/-- The URLs of `/users` and `/health` differ, whatever the base. -/
theorem users_url_ne_health_url (base : String) : base ++ "/users" ≠ base ++ "/health" := by
  intro h
  have h2 := congrArg String.data h
  simp only [String.data_append, List.append_cancel_left_eq] at h2
  exact absurd h2 (by decide)

/-- Every run of `CollectUsers` starts by building the request for `/users`. -/
theorem CollectUsers_trace_head (env : Env) (ctx : Context) (cfg : Config) :
    (CollectUsers env ctx cfg).trace.head? = some (.newRequest (cfg.BackendBase ++ "/users")) := by
  unfold CollectUsers
  simp only []
  repeat (first | rfl | split)

/-- Every run of `CheckWebSocket` starts by dialing the WebSocket URL. -/
theorem CheckWebSocket_trace_head (env : Env) (ctx : Context) (cfg : Config) :
    (CheckWebSocket env ctx cfg).trace.head? = some (.wsDial cfg.WSURL (bearer cfg)) := by
  unfold CheckWebSocket
  simp only []
  repeat (first | rfl | split)

/-- When `CheckHealth` returns an error, it made two calls: it built the request
and sent it. -/
theorem CheckHealth_error_trace (env : Env) (ctx : Context) (cfg : Config) (ok : Bool)
    (lat : Duration) (err : GoError)
    (h : (CheckHealth env ctx cfg).outcome = .returned (ok, lat, some err)) :
    (CheckHealth env ctx cfg).trace =
      [.newRequest (cfg.BackendBase ++ "/health"),
        .clientDo { url := cfg.BackendBase ++ "/health", authorization := bearer cfg }] := by
  unfold CheckHealth at h ⊢
  simp only [] at h ⊢
  cases h1 : env.newRequest (cfg.BackendBase ++ "/health") with
  | some e => simp [h1] at h
  | none =>
    cases h2 : env.clientDo
        { url := cfg.BackendBase ++ "/health", authorization := bearer cfg } with
    | error e => simp
    | ok resq => simp [h1, h2] at h

/-! ## The scrape cycle (main.go) -/

/-- C1: when `CheckHealth` returns an error, `scrapeOnce` returns that error, its
only library calls are the two of the health probe (the request for `/users` is
never built and no WebSocket is dialed), and the sink is left as it was: every
gauge keeps its value and no histogram receives an observation. -/
theorem scrapeOnce_health_error (env : Env) (ctx : Context) (cfg : Config) (sink : Sink)
    (ok : Bool) (lat : Duration) (err : GoError)
    (h : (CheckHealth env ctx cfg).outcome = .returned (ok, lat, some err)) :
    (scrapeOnce env ctx cfg sink).outcome = .returned (some err) ∧
    (scrapeOnce env ctx cfg sink).trace =
      [.newRequest (cfg.BackendBase ++ "/health"),
        .clientDo { url := cfg.BackendBase ++ "/health", authorization := bearer cfg }] ∧
    Call.newRequest (cfg.BackendBase ++ "/users") ∉ (scrapeOnce env ctx cfg sink).trace ∧
    (∀ url hdr, Call.wsDial url hdr ∉ (scrapeOnce env ctx cfg sink).trace) ∧
    (scrapeOnce env ctx cfg sink).sink = sink ∧
    (∀ g, (scrapeOnce env ctx cfg sink).sink.gauge g = sink.gauge g) ∧
    (∀ hist, (scrapeOnce env ctx cfg sink).sink.observations hist = sink.observations hist) := by
  have ht := CheckHealth_error_trace env ctx cfg ok lat err h
  have hs : scrapeOnce env ctx cfg sink =
      { outcome := .returned (some err), trace := (CheckHealth env ctx cfg).trace,
        sink := sink } := by
    unfold scrapeOnce
    simp only [h]
  rw [hs, ht]
  refine ⟨rfl, rfl, ?_, ?_, rfl, fun _ => rfl, fun _ => rfl⟩
  · simp [users_url_ne_health_url]
  · intro url hdr
    simp

/-- Witness for C1: a backend that refuses the connection. -/
theorem scrapeOnce_health_error_witness :
    (scrapeOnce unreachableEnv background defaultConfig []).outcome =
      .returned (some (.lib "dial tcp: connection refused")) ∧
    (scrapeOnce unreachableEnv background defaultConfig []).sink = [] :=
  have h := scrapeOnce_health_error unreachableEnv background defaultConfig [] false 3000000
    (.lib "dial tcp: connection refused") (by decide)
  ⟨h.1, h.2.2.2.2.1⟩

/-- The health probe never dials a WebSocket. -/
theorem CheckHealth_trace_no_dial (env : Env) (ctx : Context) (cfg : Config) (url : String)
    (hdr : Option String) : Call.wsDial url hdr ∉ (CheckHealth env ctx cfg).trace := by
  unfold CheckHealth
  simp only []
  repeat (first | split | simp)

/-- The census probe never dials a WebSocket. -/
theorem CollectUsers_trace_no_dial (env : Env) (ctx : Context) (cfg : Config) (url : String)
    (hdr : Option String) : Call.wsDial url hdr ∉ (CollectUsers env ctx cfg).trace := by
  unfold CollectUsers
  simp only []
  repeat (first | split | simp)

/-- C2: when the health and census probes succeed and `CheckWebSocket` returns an
error, `scrapeOnce` returns nil; it publishes the health gauge and latency, then
the two census gauges, then sets the websocket-up gauge to 0, and the
websocket-ping-rtt histogram receives no observation. -/
theorem scrapeOnce_ws_error (env : Env) (ctx : Context) (cfg : Config) (sink : Sink)
    (ok : Bool) (lat : Duration) (online ingame : Int) (rtt : Duration) (err : GoError)
    (hh : (CheckHealth env ctx cfg).outcome = .returned (ok, lat, none))
    (hu : (CollectUsers env ctx cfg).outcome = .returned (online, ingame, none))
    (hw : (CheckWebSocket env ctx cfg).outcome = .returned (rtt, some err)) :
    (scrapeOnce env ctx cfg sink).outcome = .returned none ∧
    (scrapeOnce env ctx cfg sink).sink = sink ++
      [.set .BackendHealthUp (if ok then 1 else 0), .observe .BackendHealthLatency lat,
        .set .UsersOnline online, .set .UsersInGame ingame, .set .WSUp 0] ∧
    (scrapeOnce env ctx cfg sink).sink.gauge .WSUp = 0 ∧
    (scrapeOnce env ctx cfg sink).sink.observations .WSPingRTT =
      sink.observations .WSPingRTT := by
  have hs : (scrapeOnce env ctx cfg sink).outcome = .returned none ∧
      (scrapeOnce env ctx cfg sink).sink = sink ++
        [.set .BackendHealthUp (if ok then 1 else 0), .observe .BackendHealthLatency lat,
          .set .UsersOnline online, .set .UsersInGame ingame, .set .WSUp 0] := by
    unfold scrapeOnce
    simp only [hh, hu, hw]
    simp
  refine ⟨hs.1, hs.2, ?_, ?_⟩
  · rw [hs.2]
    simp [Sink.gauge, Sink.sets, List.filterMap_append]
  · rw [hs.2]
    simp [Sink.observations, List.filterMap_append]

/-- Witness for C2: a healthy backend with an empty user list, whose WebSocket
peer answers the ping and then stays silent until the deadline. -/
theorem scrapeOnce_ws_error_witness :
    (scrapeOnce (healthyEnv (some (.arr [])) pongThenSilence) background defaultConfig
      []).outcome = .returned none ∧
    (scrapeOnce (healthyEnv (some (.arr [])) pongThenSilence) background defaultConfig
      []).sink.gauge .WSUp = 0 :=
  have h := scrapeOnce_ws_error (healthyEnv (some (.arr [])) pongThenSilence) background
    defaultConfig [] true 3000000 0 0 0 (.lib "i/o timeout") (by decide) (by decide)
    (by decide)
  ⟨h.1, h.2.2.1⟩

/-- C3, as stated, fails: with `/health` answering 200, `/users` answering 404 and
a WebSocket peer that would answer the ping (the latency probe alone returns an
RTT of 5 ms), `scrapeOnce` returns the census error, and neither sets the
websocket-up gauge nor observes an RTT. -/
theorem scrapeOnce_census_error_skips_ws :
    (CheckHealth usersMissingEnv background defaultConfig).outcome =
      .returned (true, 3000000, none) ∧
    (CollectUsers usersMissingEnv background defaultConfig).outcome =
      .returned (0, 0, some (.usersStatus 404 [])) ∧
    (CheckWebSocket usersMissingEnv background defaultConfig).outcome =
      .returned (5000000, none) ∧
    (scrapeOnce usersMissingEnv background defaultConfig []).outcome =
      .returned (some (.usersStatus 404 [])) ∧
    (scrapeOnce usersMissingEnv background defaultConfig []).sink.sets .WSUp = [] ∧
    (scrapeOnce usersMissingEnv background defaultConfig []).sink.observations .WSPingRTT
      = [] := by
  decide

/-- C3, amended: when the health probe succeeds and the census probe returns an
error, `scrapeOnce` returns that error having published the health gauge and
latency only: the census gauges are not set, no WebSocket is dialed, and the
websocket-up gauge and the RTT histogram are left as they were. -/
theorem scrapeOnce_census_error (env : Env) (ctx : Context) (cfg : Config) (sink : Sink)
    (ok : Bool) (lat : Duration) (online ingame : Int) (err : GoError)
    (hh : (CheckHealth env ctx cfg).outcome = .returned (ok, lat, none))
    (hu : (CollectUsers env ctx cfg).outcome = .returned (online, ingame, some err)) :
    (scrapeOnce env ctx cfg sink).outcome = .returned (some err) ∧
    (scrapeOnce env ctx cfg sink).sink = sink ++
      [.set .BackendHealthUp (if ok then 1 else 0), .observe .BackendHealthLatency lat] ∧
    (scrapeOnce env ctx cfg sink).trace =
      (CheckHealth env ctx cfg).trace ++ (CollectUsers env ctx cfg).trace ∧
    (∀ url hdr, Call.wsDial url hdr ∉ (scrapeOnce env ctx cfg sink).trace) ∧
    (scrapeOnce env ctx cfg sink).sink.sets .UsersOnline = sink.sets .UsersOnline ∧
    (scrapeOnce env ctx cfg sink).sink.sets .UsersInGame = sink.sets .UsersInGame ∧
    (scrapeOnce env ctx cfg sink).sink.sets .WSUp = sink.sets .WSUp ∧
    (scrapeOnce env ctx cfg sink).sink.observations .WSPingRTT =
      sink.observations .WSPingRTT := by
  have hs : scrapeOnce env ctx cfg sink =
      { outcome := .returned (some err),
        trace := (CheckHealth env ctx cfg).trace ++ (CollectUsers env ctx cfg).trace,
        sink := sink ++ [.set .BackendHealthUp (if ok then 1 else 0),
          .observe .BackendHealthLatency lat] } := by
    unfold scrapeOnce
    simp only [hh, hu]
  rw [hs]
  refine ⟨rfl, rfl, rfl, ?_, ?_, ?_, ?_, ?_⟩
  · intro url hdr hmem
    rcases List.mem_append.mp hmem with h1 | h1
    · exact CheckHealth_trace_no_dial env ctx cfg url hdr h1
    · exact CollectUsers_trace_no_dial env ctx cfg url hdr h1
  · simp [Sink.sets, List.filterMap_append]
  · simp [Sink.sets, List.filterMap_append]
  · simp [Sink.sets, List.filterMap_append]
  · simp [Sink.observations, List.filterMap_append]

/-- Witness for C3, amended: `/health` answers 200 and `/users` answers 404. -/
theorem scrapeOnce_census_error_witness :
    (scrapeOnce usersMissingEnv background defaultConfig []).outcome =
      .returned (some (.usersStatus 404 [])) ∧
    (scrapeOnce usersMissingEnv background defaultConfig []).sink =
      [.set .BackendHealthUp 1, .observe .BackendHealthLatency 3000000] :=
  have h := scrapeOnce_census_error usersMissingEnv background defaultConfig [] true 3000000
    0 0 (.usersStatus 404 []) (by decide) (by decide)
  ⟨h.1, h.2.1⟩

/-! ## The health probe (probe/health.go) -/

/-- C7: for every status code `s` received from `/health`, `CheckHealth` returns a
nil error, and `up` is true exactly when `200 ≤ s ≤ 299`, which is when the
truncated quotient `s / 100` is 2. -/
theorem CheckHealth_up_iff_2xx (env : Env) (ctx : Context) (cfg : Config) (resq : Response)
    (s : Int)
    (hreq : env.newRequest (cfg.BackendBase ++ "/health") = none)
    (hdo : env.clientDo { url := cfg.BackendBase ++ "/health", authorization := bearer cfg }
      = .ok resq)
    (hs : resq.statusCode = s) :
    (CheckHealth env ctx cfg).outcome =
      .returned (decide (200 ≤ s ∧ s ≤ 299), env.healthLatency, none) ∧
    (Int.tdiv s 100 = 2 ↔ 200 ≤ s ∧ s ≤ 299) := by
  refine ⟨?_, tdiv_hundred_eq_two s⟩
  unfold CheckHealth
  simp only [hreq, hdo, hs]
  congr 2
  exact decide_eq_decide.mpr (tdiv_hundred_eq_two s)

/-- Witness for C7: `/health` answers 503, so the probe returns `up = false` and a
nil error. -/
theorem CheckHealth_up_iff_2xx_witness :
    (CheckHealth unhealthyEnv background defaultConfig).outcome =
      .returned (false, 3000000, none) :=
  (CheckHealth_up_iff_2xx unhealthyEnv background defaultConfig
    { statusCode := 503, body := { bytes := [], readErr := none } } 503 rfl rfl rfl).1

/-- When the request for `/health` cannot be built, `CheckHealth` panics on the
nil request. -/
theorem CheckHealth_panics_of_newRequest_error (env : Env) (ctx : Context) (cfg : Config)
    (err : GoError) (hreq : env.newRequest (cfg.BackendBase ++ "/health") = some err) :
    (CheckHealth env ctx cfg).outcome = .panicked := by
  unfold CheckHealth
  simp only [hreq]

/-- When the request for `/users` cannot be built, `CollectUsers` returns the
error of `http.NewRequestWithContext`. -/
theorem CollectUsers_error_of_newRequest_error (env : Env) (ctx : Context) (cfg : Config)
    (err : GoError) (hreq : env.newRequest (cfg.BackendBase ++ "/users") = some err) :
    (CollectUsers env ctx cfg).outcome = .returned (0, 0, some err) := by
  unfold CollectUsers
  simp only [hreq]

/-- C8, the code at the failing input: with a base URL from which no request can
be built, `CheckHealth` neither returns a result nor an error but panics on the
nil request, while `CollectUsers` returns the error, and the whole cycle
panics. -/
theorem CheckHealth_panics_on_bad_base_url :
    (CheckHealth strictURLEnv background badHostConfig).outcome = .panicked ∧
    (CollectUsers strictURLEnv background badHostConfig).outcome =
      .returned (0, 0, some (.lib "parse: invalid character in host name")) ∧
    (scrapeOnce strictURLEnv background badHostConfig []).outcome = .panicked := by
  decide

/-! ## The census probe (probe/users.go) -/

/-- A written user record decodes to itself, whatever the row held before. -/
theorem decodeRow_encodeUser (cur u : UserRow) : decodeRow cur (encodeUser u) = (u, none) := by
  have h1 : keyMatches "isOnline" "isOnline" = true := by decide
  have h2 : keyMatches "isOnline" "isInGame" = false := by decide
  have h3 : keyMatches "isInGame" "isInGame" = true := by decide
  simp [decodeRow, encodeUser, decodeRowMember, decodeBool, firstError, h1, h2, h3]

/-- A written list of user records decodes element by element to itself. -/
theorem decodeElems_encode (storage l : List UserRow) :
    decodeElems storage (l.map encodeUser) = (l, none) := by
  induction l generalizing storage with
  | nil => rfl
  | cons u l ih =>
    simp [decodeElems, decodeRow_encodeUser, ih, firstError]

/-- The bare array of a list decodes without error to that list. -/
theorem unmarshalSlice_encodeArray (l : List UserRow) :
    (unmarshalSlice (some (encodeArray l))).1.elems = l ∧
    (unmarshalSlice (some (encodeArray l))).2 = none := by
  cases l with
  | nil => exact ⟨rfl, rfl⟩
  | cons u l =>
    have h := decodeElems_encode (RowSlice.nil.elems ++ RowSlice.nil.spare) (u :: l)
    simp only [List.map_cons] at h
    simp [unmarshalSlice, encodeArray, decodeSlice, h]

/-- The wrapped form of a list is refused by the first attempt (it is an object,
not an array) and decodes without error to that list in the second. -/
theorem unmarshal_encodeWrapped (l : List UserRow) :
    (unmarshalSlice (some (encodeWrapped l))).2 = some (.typeError .object .userRowSlice) ∧
    (unmarshalWrapped (some (encodeWrapped l))).1.elems = l ∧
    (unmarshalWrapped (some (encodeWrapped l))).2 = none := by
  have hk : keyMatches "users" "users" = true := by decide
  refine ⟨rfl, ?_, ?_⟩
  · cases l with
    | nil => simp [unmarshalWrapped, encodeWrapped, decodeWrapped, decodeWrappedMember, hk,
        encodeArray, decodeSlice]
    | cons u l =>
      have h := decodeElems_encode (RowSlice.nil.elems ++ RowSlice.nil.spare) (u :: l)
      simp only [List.map_cons] at h
      simp [unmarshalWrapped, encodeWrapped, decodeWrapped, decodeWrappedMember, hk,
        encodeArray, decodeSlice, h]
  · cases l with
    | nil => simp [unmarshalWrapped, encodeWrapped, decodeWrapped, decodeWrappedMember, hk,
        encodeArray, decodeSlice, firstError]
    | cons u l =>
      have h := decodeElems_encode (RowSlice.nil.elems ++ RowSlice.nil.spare) (u :: l)
      simp only [List.map_cons] at h
      simp [unmarshalWrapped, encodeWrapped, decodeWrapped, decodeWrappedMember, hk,
        encodeArray, decodeSlice, h, firstError]

/-- The counting loop from any starting counts adds the number of rows with each
flag. -/
theorem foldl_countStep (l : List UserRow) (acc : Int × Int) :
    l.foldl countStep acc =
      (acc.1 + (l.countP fun u => u.IsOnline), acc.2 + (l.countP fun u => u.InGame)) := by
  induction l generalizing acc with
  | nil => simp
  | cons u l ih =>
    rw [List.foldl_cons, ih]
    cases hu : u.IsOnline <;> cases hg : u.InGame <;>
      simp [countStep, hu, hg, List.countP_cons] <;> omega

/-- The counting loop returns the number of rows online and the number of rows
in game. -/
theorem countUsers_eq (l : List UserRow) :
    countUsers l =
      (((l.countP fun u => u.IsOnline : Nat) : Int), ((l.countP fun u => u.InGame : Nat) : Int)) := by
  unfold countUsers
  rw [foldl_countStep]
  simp

/-- What `CollectUsers` returns for a 2xx response whose body is read to the end:
the counts of the first attempt when it succeeds, else those of the second, else
the decode error holding both failures. -/
theorem CollectUsers_2xx (env : Env) (ctx : Context) (cfg : Config) (resp : Response)
    (hreq : env.newRequest (cfg.BackendBase ++ "/users") = none)
    (hdo : env.clientDo { url := cfg.BackendBase ++ "/users", authorization := bearer cfg }
      = .ok resp)
    (h2xx : 200 ≤ resp.statusCode ∧ resp.statusCode ≤ 299)
    (hread : resp.body.readErr = none) :
    (CollectUsers env ctx cfg).outcome =
      match (unmarshalSlice (env.jsonScan resp.body.bytes)).2 with
      | none =>
        .returned ((countUsers (unmarshalSlice (env.jsonScan resp.body.bytes)).1.elems).1,
          (countUsers (unmarshalSlice (env.jsonScan resp.body.bytes)).1.elems).2, none)
      | some e1 =>
        match (unmarshalWrapped (env.jsonScan resp.body.bytes)).2 with
        | some e2 => .returned (0, 0, some (.usersDecode e1 e2))
        | none =>
          .returned ((countUsers (unmarshalWrapped (env.jsonScan resp.body.bytes)).1.elems).1,
            (countUsers (unmarshalWrapped (env.jsonScan resp.body.bytes)).1.elems).2, none) := by
  have hdiv : Int.tdiv resp.statusCode 100 = 2 := (tdiv_hundred_eq_two _).mpr h2xx
  unfold CollectUsers
  simp only [hreq, hdo, hdiv, hread, ne_eq, not_true_eq_false, if_false]
  cases h1 : (unmarshalSlice (env.jsonScan resp.body.bytes)).2 with
  | none => simp
  | some e1 =>
    cases h2 : (unmarshalWrapped (env.jsonScan resp.body.bytes)).2 with
    | none => simp
    | some e2 => simp

/-- C4: when `/users` answers 2xx with a body that holds a list `l` of user
records, as a bare array or wrapped in an object under `users`, `CollectUsers`
returns a nil error with the number of records online and the number in game. -/
theorem CollectUsers_counts (env : Env) (ctx : Context) (cfg : Config) (resp : Response)
    (l : List UserRow)
    (hreq : env.newRequest (cfg.BackendBase ++ "/users") = none)
    (hdo : env.clientDo { url := cfg.BackendBase ++ "/users", authorization := bearer cfg }
      = .ok resp)
    (h2xx : 200 ≤ resp.statusCode ∧ resp.statusCode ≤ 299)
    (hread : resp.body.readErr = none)
    (hdoc : env.jsonScan resp.body.bytes = some (encodeArray l) ∨
      env.jsonScan resp.body.bytes = some (encodeWrapped l)) :
    (CollectUsers env ctx cfg).outcome =
      .returned (((l.countP fun u => u.IsOnline : Nat) : Int),
        ((l.countP fun u => u.InGame : Nat) : Int), none) := by
  rw [CollectUsers_2xx env ctx cfg resp hreq hdo h2xx hread]
  rcases hdoc with hd | hd
  · rw [hd, (unmarshalSlice_encodeArray l).2]
    simp only [(unmarshalSlice_encodeArray l).1, countUsers_eq]
  · rw [hd, (unmarshal_encodeWrapped l).1]
    simp only [(unmarshal_encodeWrapped l).2.2, (unmarshal_encodeWrapped l).2.1, countUsers_eq]

/-- Witness for C4: one record with both flags set, wrapped in an object, counts
toward both totals. -/
theorem CollectUsers_counts_witness :
    (CollectUsers (healthyEnv (some (encodeWrapped [{ IsOnline := true, InGame := true }]))
      pongThenMessage) background defaultConfig).outcome = .returned (1, 1, none) :=
  CollectUsers_counts
    (healthyEnv (some (encodeWrapped [{ IsOnline := true, InGame := true }])) pongThenMessage)
    background defaultConfig { statusCode := 200, body := { bytes := [], readErr := none } }
    [{ IsOnline := true, InGame := true }] rfl rfl (by decide) rfl (Or.inr rfl)

/-- C5, as stated, fails: the empty JSON object has neither accepted shape (it is
not an array, and it has no member `users`), yet a 200 response holding it makes
`CollectUsers` return a nil error with counts (0, 0); so does `null`. -/
theorem CollectUsers_accepts_empty_object :
    isRecordArray (.obj []) = false ∧ isWrappedRecordArray (.obj []) = false ∧
    (CollectUsers (healthyEnv (some (.obj [])) pongThenMessage) background
      defaultConfig).outcome = .returned (0, 0, none) ∧
    isRecordArray .null = false ∧ isWrappedRecordArray .null = false ∧
    (CollectUsers (healthyEnv (some .null) pongThenMessage) background
      defaultConfig).outcome = .returned (0, 0, none) := by
  decide

/-- C5, amended: for a 2xx response whose body is read to the end, `CollectUsers`
returns the decode error holding the failures `e1` and `e2`, with counts (0, 0),
exactly when the attempt to decode a bare array fails with `e1` and the attempt
to decode the wrapper object fails with `e2`. -/
theorem CollectUsers_decode_error_iff (env : Env) (ctx : Context) (cfg : Config)
    (resp : Response) (e1 e2 : JsonError)
    (hreq : env.newRequest (cfg.BackendBase ++ "/users") = none)
    (hdo : env.clientDo { url := cfg.BackendBase ++ "/users", authorization := bearer cfg }
      = .ok resp)
    (h2xx : 200 ≤ resp.statusCode ∧ resp.statusCode ≤ 299)
    (hread : resp.body.readErr = none) :
    (CollectUsers env ctx cfg).outcome = .returned (0, 0, some (.usersDecode e1 e2)) ↔
      ((unmarshalSlice (env.jsonScan resp.body.bytes)).2 = some e1 ∧
        (unmarshalWrapped (env.jsonScan resp.body.bytes)).2 = some e2) := by
  rw [CollectUsers_2xx env ctx cfg resp hreq hdo h2xx hread]
  cases h1 : (unmarshalSlice (env.jsonScan resp.body.bytes)).2 with
  | none => simp
  | some a =>
    cases h2 : (unmarshalWrapped (env.jsonScan resp.body.bytes)).2 with
    | none => simp
    | some b => simp

/-- Witness for C5, amended: a 200 response whose body is not valid JSON. -/
theorem CollectUsers_decode_error_iff_witness :
    (CollectUsers (healthyEnv none pongThenMessage) background defaultConfig).outcome =
      .returned (0, 0, some (.usersDecode .syntaxError .syntaxError)) :=
  (CollectUsers_decode_error_iff (healthyEnv none pongThenMessage) background defaultConfig
    { statusCode := 200, body := { bytes := [], readErr := none } } .syntaxError .syntaxError
    rfl rfl (by decide) rfl).mpr ⟨rfl, rfl⟩

/-- Both decode attempts fail on a body that is not valid JSON and on a document
that is a string, a number or a boolean. -/
theorem unmarshal_both_fail_of_scalar (doc : Option JSON)
    (h : doc = none ∨ (∃ b, doc = some (.bool b)) ∨ (∃ n, doc = some (.num n)) ∨
      (∃ t, doc = some (.str t))) :
    (unmarshalSlice doc).2 ≠ none ∧ (unmarshalWrapped doc).2 ≠ none := by
  rcases h with h | ⟨b, h⟩ | ⟨n, h⟩ | ⟨t, h⟩ <;> subst h <;>
    simp [unmarshalSlice, unmarshalWrapped, decodeSlice, decodeWrapped]

/-- The second attempt always fails on a JSON array: on an array, success is
decided by the first attempt alone. -/
theorem unmarshalWrapped_array (es : List JSON) :
    (unmarshalWrapped (some (.arr es))).2 = some (.typeError .array .wrapped) := rfl

/-- C6: for every response from `/users` whose status is outside 200..299, and
whatever its body holds, `CollectUsers` returns counts (0, 0) and the status
error, which carries the status code and the first 1024 bytes of the body at
most; neither decode attempt is made. -/
theorem CollectUsers_status_error (env : Env) (ctx : Context) (cfg : Config)
    (resp : Response)
    (hreq : env.newRequest (cfg.BackendBase ++ "/users") = none)
    (hdo : env.clientDo { url := cfg.BackendBase ++ "/users", authorization := bearer cfg }
      = .ok resp)
    (hstatus : ¬ (200 ≤ resp.statusCode ∧ resp.statusCode ≤ 299)) :
    (CollectUsers env ctx cfg).outcome =
      .returned (0, 0, some (.usersStatus resp.statusCode (resp.body.bytes.take 1024))) ∧
    (resp.body.bytes.take 1024).length ≤ 1024 ∧
    Call.unmarshalSlice ∉ (CollectUsers env ctx cfg).trace ∧
    Call.unmarshalWrapped ∉ (CollectUsers env ctx cfg).trace := by
  have hdiv : Int.tdiv resp.statusCode 100 ≠ 2 := fun h => hstatus ((tdiv_hundred_eq_two _).mp h)
  have hrun : CollectUsers env ctx cfg =
      { outcome :=
          .returned (0, 0, some (.usersStatus resp.statusCode (resp.body.bytes.take 1024))),
        trace := [.newRequest (cfg.BackendBase ++ "/users"),
          .clientDo { url := cfg.BackendBase ++ "/users", authorization := bearer cfg },
          .readAll (some 1024), .bodyClose] } := by
    unfold CollectUsers
    simp only [hreq, hdo, hdiv, ne_eq, not_false_eq_true, if_true]
  rw [hrun]
  refine ⟨rfl, List.length_take_le 1024 resp.body.bytes, ?_, ?_⟩
  · simp
  · simp

/-- Witness for C6: a 404 response whose body has 2000 bytes. -/
theorem CollectUsers_status_error_witness :
    (CollectUsers notFoundEnv background defaultConfig).outcome =
      .returned (0, 0, some (.usersStatus 404 (List.replicate 1024 120))) :=
  (CollectUsers_status_error notFoundEnv background defaultConfig
    { statusCode := 404, body := { bytes := List.replicate 2000 120, readErr := none } }
    rfl rfl (by decide)).1.trans (by rw [List.take_replicate]; rfl)

/-! ## The latency probe (probe/ws.go) -/

/-- The read loop itself never closes the connection. -/
theorem readLoop_count_close (deadlineErr : GoError) (reads : List ReadStep)
    (done : Option Duration) :
    (readLoop deadlineErr done reads).trace.count .wsClose = 0 := by
  induction reads generalizing done with
  | nil => cases done <;> simp [readLoop]
  | cons s rest ih =>
    cases done with
    | some rtt => simp [readLoop]
    | none =>
      unfold readLoop
      cases hp : deliverPongs none s.pongs with
      | none => simp
      | some d =>
        cases he : s.err with
        | some er => simp
        | none =>
          simp only []
          rw [List.count_cons]
          simp [ih d]

/-- One pong at most per read never blocks the pong handler on an empty
channel. -/
theorem deliverPongs_of_length_le_one (pongs : List Duration) (h : pongs.length ≤ 1) :
    deliverPongs none pongs = some pongs.head? := by
  match pongs, h with
  | [], _ => rfl
  | [p], _ => rfl

/-- When no read dispatches more than one pong, the read loop returns. -/
theorem readLoop_returns (deadlineErr : GoError) (reads : List ReadStep)
    (done : Option Duration) (h : ∀ s ∈ reads, s.pongs.length ≤ 1) :
    ∃ res, (readLoop deadlineErr done reads).outcome = .returned res := by
  induction reads generalizing done with
  | nil => cases done <;> simp [readLoop]
  | cons s rest ih =>
    cases done with
    | some rtt => simp [readLoop]
    | none =>
      unfold readLoop
      rw [deliverPongs_of_length_le_one s.pongs (h s (List.mem_cons_self _ _))]
      cases he : s.err with
      | some er => simp
      | none =>
        simp only []
        exact ih _ (fun t ht => h t (List.mem_cons_of_mem _ ht))

/-- When no read dispatches more than one pong, `CheckWebSocket` returns. -/
theorem CheckWebSocket_returns (env : Env) (ctx : Context) (cfg : Config)
    (h : ∀ conn, env.wsDial cfg.WSURL (bearer cfg) = .ok conn →
      ∀ s ∈ conn.reads, s.pongs.length ≤ 1) :
    ∃ res, (CheckWebSocket env ctx cfg).outcome = .returned res := by
  cases hd : env.wsDial cfg.WSURL (bearer cfg) with
  | error err =>
    unfold CheckWebSocket
    simp only [hd]
    exact ⟨_, rfl⟩
  | ok conn =>
    cases hw : conn.writeErr with
    | some err =>
      unfold CheckWebSocket
      simp only [hd, hw]
      exact ⟨_, rfl⟩
    | none =>
      unfold CheckWebSocket
      simp only [hd, hw]
      exact readLoop_returns conn.deadlineErr conn.reads none (h conn hd)

/-- On the paths that return: when the handshake succeeds and `CheckWebSocket`
returns, whatever it returns (an RTT, the error of the ping write, a read error
or the deadline error), the connection has been closed exactly once, as the last
call; when the handshake fails the probe returns that error and `Close` is never
called. This says nothing of a run that does not return. -/
theorem CheckWebSocket_closed_when_returned (env : Env) (ctx : Context) (cfg : Config) :
    (∀ conn res, env.wsDial cfg.WSURL (bearer cfg) = .ok conn →
      (CheckWebSocket env ctx cfg).outcome = .returned res →
      (CheckWebSocket env ctx cfg).trace.count .wsClose = 1 ∧
      (CheckWebSocket env ctx cfg).trace.getLast? = some .wsClose) ∧
    (∀ err, env.wsDial cfg.WSURL (bearer cfg) = .error err →
      (CheckWebSocket env ctx cfg).outcome = .returned (0, some err) ∧
      (CheckWebSocket env ctx cfg).trace.count .wsClose = 0) := by
  constructor
  · intro conn res hd hres
    unfold CheckWebSocket at hres ⊢
    simp only [hd] at hres ⊢
    cases hw : conn.writeErr with
    | some err => simp
    | none =>
      simp only [hw] at hres ⊢
      simp only [hres, deferredClose]
      refine ⟨?_, List.getLast?_concat _⟩
      rw [List.count_append, List.count_append, readLoop_count_close]
      simp
  · intro err hd
    unfold CheckWebSocket
    simp only [hd]
    simp

/-- When the handshake succeeds and no read dispatches more than one pong,
`CheckWebSocket` returns and has closed the connection exactly once, as its last
call. -/
theorem CheckWebSocket_returns_closed (env : Env) (ctx : Context) (cfg : Config)
    (conn : WSConn) (hd : env.wsDial cfg.WSURL (bearer cfg) = .ok conn)
    (h : ∀ s ∈ conn.reads, s.pongs.length ≤ 1) :
    ∃ res, (CheckWebSocket env ctx cfg).outcome = .returned res ∧
      (CheckWebSocket env ctx cfg).trace.count .wsClose = 1 ∧
      (CheckWebSocket env ctx cfg).trace.getLast? = some .wsClose := by
  have hret : ∃ res, (CheckWebSocket env ctx cfg).outcome = .returned res := by
    apply CheckWebSocket_returns
    intro c hc
    rw [hd] at hc
    cases hc
    exact h
  obtain ⟨res, hres⟩ := hret
  exact ⟨res, hres, (CheckWebSocket_closed_when_returned env ctx cfg).1 conn res hd hres⟩

/-- A run of `CheckWebSocket` that blocks never closes the connection. -/
theorem CheckWebSocket_blocked_never_closes (env : Env) (ctx : Context) (cfg : Config)
    (hb : (CheckWebSocket env ctx cfg).outcome = .blocked) :
    (CheckWebSocket env ctx cfg).trace.count .wsClose = 0 := by
  unfold CheckWebSocket at hb ⊢
  cases hd : env.wsDial cfg.WSURL (bearer cfg) with
  | error err => simp [hd] at hb
  | ok conn =>
    simp only [hd] at hb ⊢
    cases hw : conn.writeErr with
    | some err => simp [hw] at hb
    | none =>
      simp only [hw] at hb ⊢
      simp only [hb, deferredClose]
      rw [List.count_append, List.count_append, readLoop_count_close]
      simp

/-- When the read that dispatches the pong ends in an error, the read loop
returns that error: the RTT the handler put in the channel is not looked at. -/
theorem readLoop_pong_then_error (deadlineErr er : GoError) (rtt : Duration)
    (rest : List ReadStep) :
    (readLoop deadlineErr none ({ pongs := [rtt], err := some er } :: rest)).outcome =
      .returned (0, some er) := rfl

/-- C9, the code at the failing input: the handshake succeeds, the ping is
written, and the peer sends two pongs before any data message. The one
`ReadMessage` call runs the pong handler twice; the second send finds the
channel of capacity 1 full and blocks for good, since the only receiver is the
goroutine that is sending. `CheckWebSocket` does not return, the deferred `Close`
does not run, and the connection stays open: `Close` has been called zero times,
not once. -/
theorem CheckWebSocket_blocks_on_second_pong :
    (wsEnv twoPongs).wsDial defaultConfig.WSURL (bearer defaultConfig) = .ok twoPongs ∧
    deliverPongs none [5000000, 6000000] = none ∧
    (CheckWebSocket (wsEnv twoPongs) background defaultConfig).outcome = .blocked ∧
    (CheckWebSocket (wsEnv twoPongs) background defaultConfig).trace =
      [.wsDial "ws://backend:3001/ws" none, .wsSetPongHandler,
        .wsSetReadDeadline 2000000000, .wsWriteControl 2000000000, .wsReadMessage] ∧
    (CheckWebSocket (wsEnv twoPongs) background defaultConfig).trace.count .wsClose = 0 :=
  ⟨rfl, by decide⟩

/-- C10, the code at the failing input: the peer answers the ping with a pong
after 5 ms and then sends nothing, so the one `ReadMessage` call runs the pong
handler (the channel then holds the RTT) and ends with the deadline error;
`CheckWebSocket` returns that error and no RTT. Had the peer sent a data message
after the pong, the RTT would have been returned. -/
theorem CheckWebSocket_drops_recorded_rtt :
    deliverPongs none [5000000] = some (some 5000000) ∧
    (CheckWebSocket (wsEnv pongThenSilence) background defaultConfig).outcome =
      .returned (0, some (.lib "i/o timeout")) ∧
    (CheckWebSocket (wsEnv pongThenMessage) background defaultConfig).outcome =
      .returned (5000000, none) := by
  decide

end Exporter
